import Mathlib

/-!
Shallow embedding of the kernel-sparsity (pruning) modifier code:
`neuralmagicML/pytorch/recal/kernel/modifier.py` (`GradualKSModifier` and the
module-level `_log_sparsity` helper) and `src/sparseml/keras/optim/manager.py`
(`ScheduledModifierManager.modify`).

Floats are embedded as rationals (`ℚ`), Python's dynamic numeric typing as a
tagged `PyNum` value, and fallible Python code (raising `ValueError`,
`TypeError`, ...) as `Except KSError`.  Collaborators that the modifier file
imports but whose code is not part of this repository snapshot
(`interpolate`, `ModuleParamKSMask`, `ModuleKSAnalyzer`, the
`ScheduledUpdateModifier` base class) are modelled from the specification and
marked as such in their doc comments.

Side effects on masks, tensors and loggers are recorded as an explicit event
trace (`Event`) returned next to the new state, so that "calls `apply()` on
every mask" style statements can be made precise.
-/

namespace NeuralMagic

/-- Error classes raised by the embedded code.  `valueError` corresponds to
Python `ValueError` (spec: `InvalidConfigError` / `UnsupportedCurveError` at
construction), `typeError` to Python `TypeError`. -/
inductive KSError where
  | valueError
  | typeError
  | unsupportedCurve
  | layerNotFound
  | missingParameter
  | propSetAfterInit
  | noneTypeError
deriving DecidableEq, Repr

/-- Layer selection: either the `__ALL__` wildcard token or an explicit list of
layer names (the result of `validate_str_list` on the `layers` argument). -/
inductive LayerSel where
  | all
  | names (l : List String)
deriving DecidableEq, Repr

/-- Whether the selection is an explicit name list, i.e. the Python test
`self._layers != ALL_TOKEN`. -/
def LayerSel.isExplicit : LayerSel → Bool
  | .all => false
  | .names _ => true

/-- Python numeric value together with its dynamic type tag, enough to model
the `isinstance(x, float)` checks in `GradualKSModifier.__init__`. -/
inductive PyNum where
  | float (q : ℚ)
  | int (n : ℤ)
deriving DecidableEq, Repr

/-- Result of Python `isinstance(x, float)` on a `PyNum`. -/
def PyNum.isFloat : PyNum → Bool
  | .float _ => true
  | .int _ => false

/-- Numeric value of a `PyNum`. -/
def PyNum.val : PyNum → ℚ
  | .float q => q
  | .int n => (n : ℚ)

/-- Modelled from the spec: the recognized interpolation curve names
(`INTERPOLATION_FUNCS` from `neuralmagicML.pytorch.utils`, not part of this
snapshot); the spec and the modifier docstring list linear, cubic and
inverse_cubic. -/
def INTERPOLATION_FUNCS : List String := ["linear", "cubic", "inverse_cubic"]

/-- Modelled from the spec: the pure value computed by `interpolate` for a
recognized curve (spec section 4.1).  Clamps to `y0` for `x ≤ x0` and to `y1`
for `x ≥ x1`; in between, `t` is the normalized progress and the curve shapes
the step. -/
def interpolateVal (x x0 x1 y0 y1 : ℚ) (curve : String) : ℚ :=
  if x ≤ x0 then y0
  else if x1 ≤ x then y1
  else
    let t : ℚ := if x0 < x1 then (x - x0) / (x1 - x0) else 1
    if curve = "linear" then y0 + t * (y1 - y0)
    else if curve = "cubic" then y0 + t ^ 3 * (y1 - y0)
    else y0 + (1 - (1 - t) ^ 3) * (y1 - y0)

/-- Modelled from the spec: `interpolate` from `neuralmagicML.pytorch.utils`
(not part of this snapshot).  Fails with the `UnsupportedCurveError` class
when the curve name is not recognized, otherwise returns the clamped
interpolated value (spec section 4.1). -/
def interpolate (x x0 x1 y0 y1 : ℚ) (curve : String) : Except KSError ℚ :=
  if curve ∈ INTERPOLATION_FUNCS then
    .ok (interpolateVal x x0 x1 y0 y1 curve)
  else .error .unsupportedCurve

/-- Configuration fields stored by `GradualKSModifier.__init__`. -/
structure GKSConfig where
  param : String
  layers : LayerSel
  initSparsity : PyNum
  finalSparsity : PyNum
  startEpoch : ℚ
  endEpoch : ℚ
  updateFrequency : ℚ
  leaveEnabled : Bool
  interFunc : String
  paramStrict : Bool
deriving DecidableEq, Repr

/-- State of one `ModuleParamKSMask` as far as the modifier observes it: the
`enabled` flag and the last sparsity the mask tensor was set from.  Modelled
from the spec (the mask class itself is not part of this snapshot); the
tensor contents are kept abstract, mask operations are additionally recorded
in the event trace. -/
structure MaskState where
  enabled : Bool
  sparsity : Option ℚ
deriving DecidableEq, Repr

/-- State of one `ModuleKSAnalyzer`: its display tag and the currently
measured parameter sparsity.  Modelled from the spec (the analyzer class is
not part of this snapshot). -/
structure Analyzer where
  tag : String
  paramSparsity : ℚ
deriving DecidableEq, Repr

/-- Full state of a `GradualKSModifier` instance.  `started`/`ended` model
the one-shot start/end edge bookkeeping of the `ScheduledUpdateModifier` base
class (modelled from the spec, see `startPending`).  `analyzers = none`
models the Python `self._analyzers = None` before `initialize`. -/
structure GKSState where
  cfg : GKSConfig
  initialized : Bool
  started : Bool
  ended : Bool
  masks : List MaskState
  analyzers : Option (List Analyzer)
  appliedSparsity : Option ℚ
  lastLoggedSparsity : Option ℚ
deriving DecidableEq, Repr

/-- Observable side effects of the modifier's lifecycle methods.  Mask events
carry the index of the mask in `masks`; `logScalar` carries the logger name,
tag, value and step of one `logger.log_scalar` call. -/
inductive Event where
  | setEnabled (maskIdx : ℕ) (value : Bool)
  | setMaskSparsity (maskIdx : ℕ) (sparsity : ℚ)
  | applyMask (maskIdx : ℕ)
  | logScalar (logger : String) (tag : String) (value : ℚ) (step : ℤ)
deriving DecidableEq, Repr

namespace GradualKSModifier

/-- Embedding of `GradualKSModifier.__init__`: stores the configuration and
runs the validation checks in source order (lines 123-170 of
`modifier.py`), raising `ValueError`/`TypeError` accordingly.  On success the
target list is empty (`_module_masks = []`) and `_analyzers`,
`_applied_sparsity`, `_last_logged_sparsity` are `None`. -/
def construct (param : String) (layers : LayerSel) (initSparsity finalSparsity : PyNum)
    (startEpoch endEpoch updateFrequency : ℚ) (leaveEnabled : Bool)
    (interFunc : String) (paramStrict : Bool) : Except KSError GKSState :=
  if startEpoch < 0 then .error .valueError
  else if endEpoch < startEpoch then .error .valueError
  else if !initSparsity.isFloat then .error .typeError
  else if initSparsity.val < 0 ∨ 1 < initSparsity.val then .error .valueError
  else if !finalSparsity.isFloat then .error .typeError
  else if finalSparsity.val < 0 ∨ 1 < finalSparsity.val then .error .valueError
  else if interFunc ∉ INTERPOLATION_FUNCS then .error .valueError
  else .ok
    { cfg :=
        { param := param
          layers := layers
          initSparsity := initSparsity
          finalSparsity := finalSparsity
          startEpoch := startEpoch
          endEpoch := endEpoch
          updateFrequency := updateFrequency
          leaveEnabled := leaveEnabled
          interFunc := interFunc
          paramStrict := paramStrict }
      initialized := false
      started := false
      ended := false
      masks := []
      analyzers := none
      appliedSparsity := none
      lastLoggedSparsity := none }

/-- Modelled from the spec: `prop_set_check` from the `ScheduledUpdateModifier`
base class (not part of this snapshot) guards property mutation with an
explicit not-yet-initialized check (spec sections 3 and 9). -/
def propSetCheck (s : GKSState) : Except KSError Unit :=
  if s.initialized then .error .propSetAfterInit else .ok ()

/-- Embedding of the `param` property setter: `prop_set_check` then plain
assignment, no further validation. -/
def setParam (s : GKSState) (value : String) : Except KSError GKSState :=
  match propSetCheck s with
  | .error e => .error e
  | .ok _ => .ok { s with cfg := { s.cfg with param := value } }

/-- Embedding of the `layers` property setter. -/
def setLayers (s : GKSState) (value : LayerSel) : Except KSError GKSState :=
  match propSetCheck s with
  | .error e => .error e
  | .ok _ => .ok { s with cfg := { s.cfg with layers := value } }

/-- Embedding of the `init_sparsity` property setter. -/
def setInitSparsity (s : GKSState) (value : PyNum) : Except KSError GKSState :=
  match propSetCheck s with
  | .error e => .error e
  | .ok _ => .ok { s with cfg := { s.cfg with initSparsity := value } }

/-- Embedding of the `final_sparsity` property setter. -/
def setFinalSparsity (s : GKSState) (value : PyNum) : Except KSError GKSState :=
  match propSetCheck s with
  | .error e => .error e
  | .ok _ => .ok { s with cfg := { s.cfg with finalSparsity := value } }

/-- Embedding of the `leave_enabled` property setter. -/
def setLeaveEnabled (s : GKSState) (value : Bool) : Except KSError GKSState :=
  match propSetCheck s with
  | .error e => .error e
  | .ok _ => .ok { s with cfg := { s.cfg with leaveEnabled := value } }

/-- Embedding of the `inter_func` property setter (`modifier.py` lines
261-267): `prop_set_check` then plain assignment — the new curve name is not
validated against `INTERPOLATION_FUNCS`. -/
def setInterFunc (s : GKSState) (value : String) : Except KSError GKSState :=
  match propSetCheck s with
  | .error e => .error e
  | .ok _ => .ok { s with cfg := { s.cfg with interFunc := value } }

/-- Embedding of the `param_strict` property setter. -/
def setParamStrict (s : GKSState) (value : Bool) : Except KSError GKSState :=
  match propSetCheck s with
  | .error e => .error e
  | .ok _ => .ok { s with cfg := { s.cfg with paramStrict := value } }

end GradualKSModifier

/-- A layer of the module as the modifier observes it: its name and the names
of its parameters (`layer.named_parameters()`). -/
structure Layer where
  name : String
  params : List String
deriving DecidableEq, Repr

/-- Modelled from the spec: `get_layer(name, module)` from
`neuralmagicML.pytorch.utils` (not part of this snapshot); fails with the
`LayerNotFoundError` class when no layer of that name exists. -/
def getLayer (name : String) (module : List Layer) : Except KSError Layer :=
  match module.find? (fun l => l.name == name) with
  | some l => .ok l
  | none => .error .layerNotFound

/-- Resolution of the configured layer selection in
`GradualKSModifier.initialize`: `get_terminal_layers(module)` for the
`__ALL__` token (modelled as the module's full layer list), otherwise
`get_layer` on each explicitly given name. -/
def resolveLayers (sel : LayerSel) (module : List Layer) : Except KSError (List Layer) :=
  match sel with
  | .all => .ok module
  | .names ns => ns.mapM (fun n => getLayer n module)

namespace GradualKSModifier

/-- Embedding of the per-layer loop of `GradualKSModifier.initialize` (lines
308-323): for each resolved layer in order, if the named parameter is found,
register one `ModuleParamKSMask` and one `ModuleKSAnalyzer`; if it is missing
and `param_strict` is set and the selection was an explicit list, raise the
`MissingParameterError` class; otherwise skip the layer. -/
def initRegister (param : String) (strict explicitSel : Bool) :
    List Layer → Except KSError (List MaskState × List Analyzer)
  | [] => .ok ([], [])
  | layer :: rest =>
    if strict = true ∧ explicitSel = true ∧ param ∉ layer.params then
      .error .missingParameter
    else
      match initRegister param strict explicitSel rest with
      | .error e => .error e
      | .ok (ms, as) =>
        if param ∈ layer.params then
          .ok ({ enabled := false, sparsity := none } :: ms,
            { tag := layer.name ++ "/" ++ param, paramSparsity := 0 } :: as)
        else .ok (ms, as)

/-- Embedding of `GradualKSModifier.initialize`: resolves the layer
selection, then registers masks and analyzers.  Masks are appended to the
existing `_module_masks` list while `_analyzers` is reset to the fresh
list, mirroring the Python assignments. -/
def initModifier (s : GKSState) (module : List Layer) : Except KSError GKSState :=
  match resolveLayers s.cfg.layers module with
  | .error e => .error e
  | .ok layers =>
    match initRegister s.cfg.param s.cfg.paramStrict s.cfg.layers.isExplicit layers with
    | .error e => .error e
    | .ok (ms, as) =>
      .ok { s with initialized := true, masks := s.masks ++ ms, analyzers := some as }

end GradualKSModifier

/-- Modelled from the spec: `start_pending` of the `ScheduledUpdateModifier`
base class (not part of this snapshot).  The spec describes the start edge
as firing on the first `update` call where `epoch ≥ start_epoch`; the
one-shot bookkeeping is carried by `started`. -/
def startPending (s : GKSState) (epoch : ℚ) (_stepsPerEpoch : ℤ) : Bool :=
  !s.started && s.cfg.startEpoch ≤ epoch

/-- Modelled from the spec: `end_pending` of the base class, the end edge
firing on the first `update` call where `epoch ≥ end_epoch`. -/
def endPending (s : GKSState) (epoch : ℚ) (_stepsPerEpoch : ℤ) : Bool :=
  !s.ended && s.cfg.endEpoch ≤ epoch

namespace GradualKSModifier

/-- Embedding of `GradualKSModifier.update` (lines 325-359): on a start edge
enable every mask, on an end edge with `leave_enabled` false disable every
mask, then unconditionally recompute `applied_sparsity` with `interpolate`
and call `set_param_mask_from_sparsity` on every mask.  Mask mutations are
recorded in the event trace in source order. -/
def update (s : GKSState) (epoch : ℚ) (stepsPerEpoch : ℤ) :
    Except KSError (GKSState × List Event) := do
  let startP := startPending s epoch stepsPerEpoch
  let endP := endPending s epoch stepsPerEpoch
  let disable := endP && !s.cfg.leaveEnabled
  let masks1 := if startP then s.masks.map (fun m => { m with enabled := true }) else s.masks
  let ev1 : List Event :=
    if startP then (List.range s.masks.length).map (fun i => .setEnabled i true) else []
  let masks2 := if disable then masks1.map (fun m => { m with enabled := false }) else masks1
  let ev2 : List Event :=
    if disable then (List.range masks1.length).map (fun i => .setEnabled i false) else []
  let sp ← interpolate epoch s.cfg.startEpoch s.cfg.endEpoch s.cfg.initSparsity.val
    s.cfg.finalSparsity.val s.cfg.interFunc
  let masks3 := masks2.map (fun m => { m with sparsity := some sp })
  let ev3 : List Event := (List.range masks2.length).map (fun i => .setMaskSparsity i sp)
  .ok ({ s with
          started := s.started || startP
          ended := s.ended || endP
          masks := masks3
          appliedSparsity := some sp }, ev1 ++ ev2 ++ ev3)

end GradualKSModifier

/-- Python's `round` on a rational: round half to even (banker's rounding),
as used on floats by `_log_sparsity`. -/
def pyRound (q : ℚ) : ℤ :=
  let f := ⌊q⌋
  let r := q - (f : ℚ)
  if r < 1 / 2 then f
  else if 1 / 2 < r then f + 1
  else if f % 2 = 0 then f else f + 1

/-- Embedding of the module-level `_log_sparsity` helper (lines 28-42): the
step is `round(epoch)` when `steps_per_epoch <= 0`, else
`round(epoch * steps_per_epoch)`; one `log_scalar` call is made per
(logger, analyzer) pair, tagged `Modifier KS/` plus the analyzer tag, with
the analyzer's currently measured sparsity. -/
def logSparsity (analyzers : List Analyzer) (loggers : List String) (epoch : ℚ)
    (stepsPerEpoch : ℤ) : List Event :=
  let step := if stepsPerEpoch ≤ 0 then pyRound epoch else pyRound (epoch * (stepsPerEpoch : ℚ))
  loggers.flatMap (fun lg =>
    analyzers.map (fun a => Event.logScalar lg ("Modifier KS/" ++ a.tag) a.paramSparsity step))

namespace GradualKSModifier

/-- Embedding of `GradualKSModifier.log_update` (lines 361-378): when
`applied_sparsity != last_logged_sparsity`, record the new value in
`last_logged_sparsity` and emit via `_log_sparsity`; otherwise do nothing.
Iterating `self._analyzers` while it is still `None` is a Python
`TypeError`, modelled as `noneTypeError`.  `loggers` is the base class's
resolved logger list. -/
def logUpdate (s : GKSState) (loggers : List String) (epoch : ℚ) (stepsPerEpoch : ℤ) :
    Except KSError (GKSState × List Event) :=
  if s.appliedSparsity ≠ s.lastLoggedSparsity then
    match s.analyzers with
    | none => .error .noneTypeError
    | some as =>
      .ok ({ s with lastLoggedSparsity := s.appliedSparsity },
        logSparsity as loggers epoch stepsPerEpoch)
  else .ok (s, [])

/-- Embedding of `GradualKSModifier.optimizer_post_step` (lines 380-396):
unconditionally call `apply()` on every mask in `_module_masks`; no modifier
state changes. -/
def optimizerPostStep (s : GKSState) (_epoch : ℚ) (_stepsPerEpoch : ℤ) :
    GKSState × List Event :=
  (s, (List.range s.masks.length).map (fun i => .applyMask i))

end GradualKSModifier

/-- A scheduled keras modifier as `ScheduledModifierManager.modify` observes
it: an identity and its `start_epoch` sort key. -/
structure KerasModifier where
  id : ℕ
  startEpoch : ℚ
deriving DecidableEq, Repr

namespace ScheduledModifierManager

/-- Embedding of the ordering computed by `ScheduledModifierManager.modify`
(`manager.py` lines 49-91): `self._modifiers.sort(key=lambda mod:
mod.start_epoch)` — a stable ascending sort by `start_epoch` — followed by
one `mod.modify(...)` call per modifier in list order.  `modifyOrder` is
that invocation order. -/
def modifyOrder (modifiers : List KerasModifier) : List KerasModifier :=
  modifiers.mergeSort (fun a b => decide (a.startEpoch ≤ b.startEpoch))

end ScheduledModifierManager

/-! Theorems about the embedded program. -/

/-- The sparsity value `update` computes for a state at an epoch: the
interpolation of the configured schedule at that epoch. -/
def updateSp (s : GKSState) (epoch : ℚ) : ℚ :=
  interpolateVal epoch s.cfg.startEpoch s.cfg.endEpoch s.cfg.initSparsity.val
    s.cfg.finalSparsity.val s.cfg.interFunc

/-- Concrete initialized modifier state used by witnesses: one target mask,
linear schedule from sparsity 0 at epoch 0 to sparsity 1 at epoch 10. -/
def demoState : GKSState :=
  { cfg :=
      { param := "weight", layers := .all, initSparsity := .float 0
        finalSparsity := .float 1, startEpoch := 0, endEpoch := 10
        updateFrequency := 1, leaveEnabled := true, interFunc := "linear"
        paramStrict := true }
    initialized := true, started := false, ended := false
    masks := [{ enabled := false, sparsity := none }]
    analyzers := some [], appliedSparsity := none, lastLoggedSparsity := none }

/-- Result state of `update demoState 0 1` (start edge fires). -/
def demoStateAfter : GKSState :=
  { demoState with
    started := true
    masks := [{ enabled := true, sparsity := some 0 }]
    appliedSparsity := some 0 }

/-- Trace of `update demoState 0 1`. -/
def demoTrace : List Event := [.setEnabled 0 true, .setMaskSparsity 0 0]

/-- Variant of `demoState` with `leave_enabled = false`, already started. -/
def demoEndState : GKSState :=
  { demoState with
    cfg := { demoState.cfg with leaveEnabled := false }
    started := true }

/-- Result state of `update demoEndState 10 1` (end edge fires, masks
disabled, final sparsity 1 applied). -/
def demoEndStateAfter : GKSState :=
  { demoEndState with
    ended := true
    masks := [{ enabled := false, sparsity := some 1 }]
    appliedSparsity := some 1 }

/-- Trace of `update demoEndState 10 1`. -/
def demoEndTrace : List Event := [.setEnabled 0 false, .setMaskSparsity 0 1]

/-- Concrete module with one layer `conv1` carrying only a `weight`
parameter. -/
def demoModule : List Layer := [{ name := "conv1", params := ["weight"] }]

/-- Unresolved modifier targeting the missing `bias` parameter of `conv1`
by explicit name list, in strict mode. -/
def demoStrictState : GKSState :=
  { cfg :=
      { param := "bias", layers := .names ["conv1"], initSparsity := .float 0
        finalSparsity := .float 1, startEpoch := 0, endEpoch := 10
        updateFrequency := 1, leaveEnabled := true, interFunc := "linear"
        paramStrict := true }
    initialized := false, started := false, ended := false
    masks := [], analyzers := none, appliedSparsity := none, lastLoggedSparsity := none }

/-- Same configuration but with the `__ALL__` wildcard selection. -/
def demoWildState : GKSState :=
  { demoStrictState with cfg := { demoStrictState.cfg with layers := .all } }

/-- State after one `update`, with one analyzer, ready for `log_update`. -/
def demoLogState : GKSState :=
  { demoState with
    appliedSparsity := some 1
    analyzers := some [{ tag := "conv1/weight", paramSparsity := 1 }] }

/-- Two keras modifiers with out-of-order start epochs. -/
def demoMods : List KerasModifier :=
  [{ id := 0, startEpoch := 5 }, { id := 1, startEpoch := 2 }]

/-- Freshly constructed modifier with the valid curve `linear`. -/
def c7Constructed : GKSState :=
  { cfg :=
      { param := "weight", layers := .names ["fc"], initSparsity := .float 0
        finalSparsity := .float 1, startEpoch := 0, endEpoch := 10
        updateFrequency := 1, leaveEnabled := true, interFunc := "linear"
        paramStrict := true }
    initialized := false, started := false, ended := false
    masks := [], analyzers := none, appliedSparsity := none, lastLoggedSparsity := none }

/-- The same modifier after the public `inter_func` property assignment of
the unrecognized name `bogus`. -/
def c7Mutated : GKSState :=
  { c7Constructed with cfg := { c7Constructed.cfg with interFunc := "bogus" } }

/-- Normal form of a successful `update` call: the masks after the optional
enable/disable toggles all carry the freshly interpolated sparsity, and the
trace is the enable events, then the disable events, then one
`setMaskSparsity` event per mask. -/
theorem update_ok (s : GKSState) (epoch : ℚ) (spe : ℤ)
    (hf : s.cfg.interFunc ∈ INTERPOLATION_FUNCS) :
    GradualKSModifier.update s epoch spe = .ok
      ({ s with
          started := s.started || startPending s epoch spe
          ended := s.ended || endPending s epoch spe
          masks := (if endPending s epoch spe && !s.cfg.leaveEnabled then
              (if startPending s epoch spe then
                s.masks.map (fun m => { m with enabled := true }) else s.masks).map
                (fun m => { m with enabled := false })
            else (if startPending s epoch spe then
              s.masks.map (fun m => { m with enabled := true }) else s.masks)).map
            (fun m => { m with sparsity := some (updateSp s epoch) })
          appliedSparsity := some (updateSp s epoch) },
        (if startPending s epoch spe then
            (List.range s.masks.length).map (fun i => Event.setEnabled i true) else []) ++
        (if endPending s epoch spe && !s.cfg.leaveEnabled then
            (List.range s.masks.length).map (fun i => Event.setEnabled i false) else []) ++
        (List.range s.masks.length).map (fun i => Event.setMaskSparsity i (updateSp s epoch))) := by
  have hi : interpolate epoch s.cfg.startEpoch s.cfg.endEpoch s.cfg.initSparsity.val
      s.cfg.finalSparsity.val s.cfg.interFunc = .ok (updateSp s epoch) := by
    rw [interpolate, if_pos hf]; rfl
  unfold GradualKSModifier.update
  rw [hi]
  by_cases hs : startPending s epoch spe <;>
    by_cases he : (endPending s epoch spe && !s.cfg.leaveEnabled) = true <;>
      simp [hs, he, List.length_map] <;> rfl

/-- Failure form of `update`: with an unrecognized curve the interpolation
raises the unsupported-curve error, which propagates. -/
theorem update_unsupported (s : GKSState) (epoch : ℚ) (spe : ℤ)
    (hf : s.cfg.interFunc ∉ INTERPOLATION_FUNCS) :
    GradualKSModifier.update s epoch spe = .error .unsupportedCurve := by
  have hi : interpolate epoch s.cfg.startEpoch s.cfg.endEpoch s.cfg.initSparsity.val
      s.cfg.finalSparsity.val s.cfg.interFunc = .error .unsupportedCurve := by
    rw [interpolate, if_neg hf]
  unfold GradualKSModifier.update
  rw [hi]
  rfl

/-- C1: every `update` call — whatever the epoch's position relative to
`[start_epoch, end_epoch]` — recomputes `applied_sparsity` as
`interpolate(epoch, start_epoch, end_epoch, init_sparsity, final_sparsity,
inter_func)` and calls `set_param_mask_from_sparsity` with that value on
every mask in the target list (hypothesis: the stored curve name is
recognized, which construction guarantees, so `interpolate` returns a
value). -/
theorem C1_update_unconditional (s : GKSState) (epoch : ℚ) (spe : ℤ)
    (hf : s.cfg.interFunc ∈ INTERPOLATION_FUNCS) :
    ∃ s' evs sp, GradualKSModifier.update s epoch spe = .ok (s', evs) ∧
      interpolate epoch s.cfg.startEpoch s.cfg.endEpoch s.cfg.initSparsity.val
        s.cfg.finalSparsity.val s.cfg.interFunc = .ok sp ∧
      s'.appliedSparsity = some sp ∧
      s'.masks.length = s.masks.length ∧
      (∀ m ∈ s'.masks, m.sparsity = some sp) ∧
      (∀ i < s.masks.length, Event.setMaskSparsity i sp ∈ evs) := by
  refine ⟨_, _, updateSp s epoch, update_ok s epoch spe hf, ?_, rfl, ?_, ?_, ?_⟩
  · rw [interpolate, if_pos hf]; rfl
  · by_cases hs : startPending s epoch spe <;>
      by_cases he : (endPending s epoch spe && !s.cfg.leaveEnabled) = true <;>
        simp [hs, he, List.length_map]
  · intro m hm
    simp only [List.mem_map] at hm
    obtain ⟨m', _, rfl⟩ := hm
    rfl
  · intro i hi
    exact List.mem_append_right _ (List.mem_map_of_mem _ (List.mem_range.mpr hi))

/-- C2: on a start edge `update` sets `enabled = true` on every target mask;
on an end edge with `leave_enabled = false` it sets `enabled = false` on
every target mask; and with `leave_enabled = true` no `update` call ever
sets a mask's `enabled` flag to `false`. -/
theorem C2_update_edges (s : GKSState) (epoch : ℚ) (spe : ℤ) (s' : GKSState)
    (evs : List Event) (h : GradualKSModifier.update s epoch spe = .ok (s', evs)) :
    (startPending s epoch spe = true →
      ∀ i < s.masks.length, Event.setEnabled i true ∈ evs) ∧
    (endPending s epoch spe = true → s.cfg.leaveEnabled = false →
      ∀ i < s.masks.length, Event.setEnabled i false ∈ evs) ∧
    (s.cfg.leaveEnabled = true → ∀ i b, Event.setEnabled i b ∈ evs → b = true) := by
  by_cases hf : s.cfg.interFunc ∈ INTERPOLATION_FUNCS
  · rw [update_ok s epoch spe hf] at h
    rw [Except.ok.injEq, Prod.mk.injEq] at h
    obtain ⟨-, hevs⟩ := h
    subst hevs
    refine ⟨?_, ?_, ?_⟩
    · intro hs i hi
      refine List.mem_append_left _ (List.mem_append_left _ ?_)
      rw [if_pos hs]
      exact List.mem_map_of_mem _ (List.mem_range.mpr hi)
    · intro he hl i hi
      refine List.mem_append_left _ (List.mem_append_right _ ?_)
      rw [if_pos (by simp [he, hl])]
      exact List.mem_map_of_mem _ (List.mem_range.mpr hi)
    · intro hl i b hb
      have hd : (endPending s epoch spe && !s.cfg.leaveEnabled) = false := by simp [hl]
      rw [hd] at hb
      simp only [Bool.false_eq_true, if_false, List.append_nil] at hb
      rcases List.mem_append.mp hb with hb | hb
      · split_ifs at hb
        · simp only [List.mem_map, List.mem_range] at hb
          obtain ⟨j, -, hj⟩ := hb
          cases hj
          rfl
        · exact absurd hb (List.not_mem_nil _)
      · simp only [List.mem_map, List.mem_range] at hb
        obtain ⟨j, -, hj⟩ := hb
        cases hj
  · rw [update_unsupported s epoch spe hf] at h
    cases h

/-- Witness for C1 at the concrete `demoState` and epoch 0: `update`
succeeds, the interpolated sparsity 0 is stored and pushed to the mask. -/
theorem C1_witness :
    GradualKSModifier.update demoState 0 1 = .ok (demoStateAfter, demoTrace) ∧
    demoStateAfter.appliedSparsity = some 0 ∧ Event.setMaskSparsity 0 0 ∈ demoTrace := by
  have h0 : GradualKSModifier.update demoState 0 1 = .ok (demoStateAfter, demoTrace) := by rfl
  obtain ⟨s', evs, sp, h1, h2, h3, h4, h5, h6⟩ :=
    C1_update_unconditional demoState 0 1 (by decide)
  rw [h0, Except.ok.injEq, Prod.mk.injEq] at h1
  obtain ⟨rfl, rfl⟩ := h1
  have hsp : sp = 0 := by
    rw [show interpolate 0 demoState.cfg.startEpoch demoState.cfg.endEpoch
        demoState.cfg.initSparsity.val demoState.cfg.finalSparsity.val
        demoState.cfg.interFunc = (Except.ok 0 : Except KSError ℚ) from rfl,
      Except.ok.injEq] at h2
    exact h2.symm
  subst hsp
  exact ⟨h0, h3, h6 0 (by decide)⟩

/-- Witness for C2: at `demoState` the start edge enables the mask; at
`demoEndState` (with `leave_enabled = false`) the end edge disables it. -/
theorem C2_witness :
    GradualKSModifier.update demoState 0 1 = .ok (demoStateAfter, demoTrace) ∧
    Event.setEnabled 0 true ∈ demoTrace ∧
    GradualKSModifier.update demoEndState 10 1 = .ok (demoEndStateAfter, demoEndTrace) ∧
    Event.setEnabled 0 false ∈ demoEndTrace := by
  have h1 : GradualKSModifier.update demoState 0 1 = .ok (demoStateAfter, demoTrace) := by rfl
  have h2 : GradualKSModifier.update demoEndState 10 1 =
      .ok (demoEndStateAfter, demoEndTrace) := by rfl
  refine ⟨h1, ?_, h2, ?_⟩
  · exact (C2_update_edges demoState 0 1 demoStateAfter demoTrace h1).1 (by decide) 0 (by decide)
  · exact (C2_update_edges demoEndState 10 1 demoEndStateAfter demoEndTrace h2).2.1
      (by decide) (by decide) 0 (by decide)

/-- C3: every call to `GradualKSModifier.optimizer_post_step` calls `apply()`
on every mask in the target list, unconditionally — for every state (hence
every epoch, `leave_enabled` setting and post-`initialize` history), the
trace is exactly one `applyMask` event per mask index and the modifier state
is unchanged. -/
theorem C3_post_step_applies_every_mask :
    ∀ (s : GKSState) (epoch : ℚ) (stepsPerEpoch : ℤ),
      (GradualKSModifier.optimizerPostStep s epoch stepsPerEpoch).1 = s ∧
      (GradualKSModifier.optimizerPostStep s epoch stepsPerEpoch).2 =
        (List.range s.masks.length).map Event.applyMask ∧
      ∀ i < s.masks.length,
        Event.applyMask i ∈ (GradualKSModifier.optimizerPostStep s epoch stepsPerEpoch).2 := by
  intro s epoch stepsPerEpoch
  refine ⟨rfl, rfl, ?_⟩
  intro i hi
  exact List.mem_map_of_mem _ (List.mem_range.mpr hi)

/-- Witness for C3 at a concrete two-mask state. -/
theorem C3_witness :
    Event.applyMask 1 ∈
      (GradualKSModifier.optimizerPostStep
        { cfg :=
            { param := "weight", layers := .all, initSparsity := .float 0
              finalSparsity := .float 1, startEpoch := 0, endEpoch := 1
              updateFrequency := 1, leaveEnabled := true, interFunc := "linear"
              paramStrict := true }
          initialized := true, started := false, ended := false
          masks := [{ enabled := true, sparsity := none }, { enabled := true, sparsity := none }]
          analyzers := some [], appliedSparsity := none, lastLoggedSparsity := none }
        0 1).2 :=
  (C3_post_step_applies_every_mask _ 0 1).2.2 1 (by decide)

/-- C4: with float-typed sparsity arguments (the type the spec's
configuration surface prescribes), construction fails — always with the
`ValueError` class, the source's `InvalidConfigError` — exactly when
`start_epoch < 0`, or `end_epoch < start_epoch`, or `init_sparsity` or
`final_sparsity` lies outside `[0, 1]`, or `inter_func` is not a recognized
curve; and on success no layers or parameters are resolved: the mask list is
empty and the analyzer list is still unset. -/
theorem C4_construct_validation (param : String) (layers : LayerSel) (qi qf : ℚ)
    (startEpoch endEpoch updateFrequency : ℚ) (leaveEnabled : Bool) (interFunc : String)
    (paramStrict : Bool) :
    ((∃ e, GradualKSModifier.construct param layers (.float qi) (.float qf) startEpoch
        endEpoch updateFrequency leaveEnabled interFunc paramStrict = .error e) ↔
      (startEpoch < 0 ∨ endEpoch < startEpoch ∨ qi < 0 ∨ 1 < qi ∨ qf < 0 ∨ 1 < qf ∨
        interFunc ∉ INTERPOLATION_FUNCS)) ∧
    (∀ e, GradualKSModifier.construct param layers (.float qi) (.float qf) startEpoch
        endEpoch updateFrequency leaveEnabled interFunc paramStrict = .error e →
      e = KSError.valueError) ∧
    (∀ s, GradualKSModifier.construct param layers (.float qi) (.float qf) startEpoch
        endEpoch updateFrequency leaveEnabled interFunc paramStrict = .ok s →
      s.masks = [] ∧ s.analyzers = none) := by
  unfold GradualKSModifier.construct
  simp only [PyNum.isFloat, PyNum.val, Bool.not_true, Bool.false_eq_true, if_false]
  split_ifs with h1 h2 h3 h4 h5 <;> simp_all <;> tauto

/-- Witness for C4: a `final_sparsity` of 2.0 makes construction fail, and a
valid configuration constructs with an empty target list. -/
theorem C4_witness :
    (∃ e, GradualKSModifier.construct "weight" .all (.float 0) (.float 2) 0 10 1 true
      "linear" true = .error e) ∧
    (⟨⟨"weight", .all, .float 0, .float 1, 0, 10, 1, true, "linear", true⟩, false, false,
      false, [], none, none, none⟩ : GKSState).masks = [] := by
  constructor
  · exact (C4_construct_validation "weight" .all 0 2 0 10 1 true "linear" true).1.mpr
      (Or.inr (Or.inr (Or.inr (Or.inr (Or.inr (Or.inl (by norm_num)))))))
  · exact ((C4_construct_validation "weight" .all 0 1 0 10 1 true "linear" true).2.2 _ rfl).1

/-- C9: when `init_sparsity` (or, `init_sparsity` being a well-formed float,
`final_sparsity`) is an int-typed value, construction fails with the
`TypeError` class even when the numeric value lies in `[0, 1]` — a stricter
requirement than the spec's range constraint. -/
theorem C9_nonfloat_sparsity_type_error (param : String) (layers : LayerSel)
    (startEpoch endEpoch updateFrequency : ℚ) (leaveEnabled : Bool) (interFunc : String)
    (paramStrict : Bool) (hse : 0 ≤ startEpoch) (hee : startEpoch ≤ endEpoch) :
    (∀ (n : ℤ) (finalSparsity : PyNum), 0 ≤ (n : ℚ) → (n : ℚ) ≤ 1 →
      GradualKSModifier.construct param layers (.int n) finalSparsity startEpoch endEpoch
        updateFrequency leaveEnabled interFunc paramStrict = .error .typeError) ∧
    (∀ (qi : ℚ) (m : ℤ), 0 ≤ qi → qi ≤ 1 → 0 ≤ (m : ℚ) → (m : ℚ) ≤ 1 →
      GradualKSModifier.construct param layers (.float qi) (.int m) startEpoch endEpoch
        updateFrequency leaveEnabled interFunc paramStrict = .error .typeError) := by
  constructor
  · intro n finalSparsity _ _
    unfold GradualKSModifier.construct
    simp only [PyNum.isFloat, PyNum.val, Bool.not_false]
    split_ifs with h1 h2 <;> first | rfl | linarith
  · intro qi m h0 h1 _ _
    unfold GradualKSModifier.construct
    simp only [PyNum.isFloat, PyNum.val, Bool.not_false, Bool.not_true,
      Bool.false_eq_true, if_false, if_true]
    rw [if_neg (by linarith : ¬startEpoch < 0),
      if_neg (by linarith : ¬endEpoch < startEpoch),
      if_neg (show ¬(qi < 0 ∨ 1 < qi) by push_neg; exact ⟨h0, h1⟩)]

/-- Witness for C9: constructing with the int `0` as `init_sparsity`, and
with the int `1` as `final_sparsity`, both fail with the type error. -/
theorem C9_witness :
    GradualKSModifier.construct "weight" (.names ["fc"]) (.int 0) (.float 1) 0 10 1
      true "linear" true = .error .typeError ∧
    GradualKSModifier.construct "weight" (.names ["fc"]) (.float 0) (.int 1) 0 10 1
      true "linear" true = .error .typeError :=
  ⟨(C9_nonfloat_sparsity_type_error "weight" (.names ["fc"]) 0 10 1 true "linear" true
      (by norm_num) (by norm_num)).1 0 (.float 1) (by norm_num) (by norm_num),
   (C9_nonfloat_sparsity_type_error "weight" (.names ["fc"]) 0 10 1 true "linear" true
      (by norm_num) (by norm_num)).2 0 1 (by norm_num) (by norm_num) (by norm_num)
      (by norm_num)⟩

/-- C10: a freshly constructed modifier has both `applied_sparsity` and
`last_logged_sparsity` unset (`None`), which compare equal, so a
`log_update` call before any `update` emits no log event and leaves the
state — in particular `last_logged_sparsity` — unchanged. -/
theorem C10_log_update_before_update (param : String) (layers : LayerSel)
    (initSparsity finalSparsity : PyNum) (startEpoch endEpoch updateFrequency : ℚ)
    (leaveEnabled : Bool) (interFunc : String) (paramStrict : Bool) (s : GKSState)
    (h : GradualKSModifier.construct param layers initSparsity finalSparsity startEpoch
      endEpoch updateFrequency leaveEnabled interFunc paramStrict = .ok s) :
    s.appliedSparsity = none ∧ s.lastLoggedSparsity = none ∧
    ∀ (loggers : List String) (epoch : ℚ) (stepsPerEpoch : ℤ),
      GradualKSModifier.logUpdate s loggers epoch stepsPerEpoch = .ok (s, []) := by
  unfold GradualKSModifier.construct at h
  split_ifs at h
  rw [Except.ok.injEq] at h
  subst h
  refine ⟨rfl, rfl, ?_⟩
  intro loggers epoch stepsPerEpoch
  simp [GradualKSModifier.logUpdate]

/-- Witness for C10 at a concrete construction. -/
theorem C10_witness :
    ∃ s, GradualKSModifier.construct "weight" (.names ["fc"]) (.float 0) (.float 1)
        0 10 1 true "linear" true = .ok s ∧
      GradualKSModifier.logUpdate s ["tb"] 3 100 = .ok (s, []) := by
  have h : GradualKSModifier.construct "weight" (.names ["fc"]) (.float 0) (.float 1)
      0 10 1 true "linear" true = .ok ⟨⟨"weight", .names ["fc"], .float 0, .float 1,
        0, 10, 1, true, "linear", true⟩, false, false, false, [], none, none, none⟩ := by
    rfl
  exact ⟨_, h, (C10_log_update_before_update "weight" (.names ["fc"]) (.float 0)
    (.float 1) 0 10 1 true "linear" true _ h).2.2 ["tb"] 3 100⟩

/-- Inversion of a successful `initialize`: it resolved the layers,
registered masks and analyzers, and produced exactly the appended state. -/
theorem initModifier_cases (s : GKSState) (module : List Layer) (s' : GKSState)
    (h : GradualKSModifier.initModifier s module = .ok s') :
    ∃ layers ms as, resolveLayers s.cfg.layers module = .ok layers ∧
      GradualKSModifier.initRegister s.cfg.param s.cfg.paramStrict s.cfg.layers.isExplicit
        layers = .ok (ms, as) ∧
      s' = { s with initialized := true, masks := s.masks ++ ms, analyzers := some as } := by
  unfold GradualKSModifier.initModifier at h
  split at h
  next e heq => cases h
  next layers hres =>
    split at h
    next e heq2 => cases h
    next ms as hreg =>
      cases h
      exact ⟨layers, ms, as, hres, hreg, rfl⟩

/-- In strict mode over an explicit selection, a layer missing the parameter
makes registration fail with the missing-parameter error. -/
theorem initRegister_error (param : String) (layers : List Layer)
    (hmiss : ∃ l ∈ layers, param ∉ l.params) :
    GradualKSModifier.initRegister param true true layers = .error .missingParameter := by
  induction layers with
  | nil => simp at hmiss
  | cons layer rest ih =>
    obtain ⟨l, hl, hlp⟩ := hmiss
    unfold GradualKSModifier.initRegister
    rcases List.mem_cons.mp hl with rfl | hl'
    · rw [if_pos ⟨rfl, rfl, hlp⟩]
    · by_cases hmem : param ∈ layer.params
      · rw [if_neg (by simp [hmem]), ih ⟨l, hl', hlp⟩]
      · rw [if_pos ⟨rfl, rfl, hmem⟩]

/-- Outside the strict-and-explicit mode, registration always succeeds and
registers exactly the layers that do carry the parameter, in order. -/
theorem initRegister_ok (param : String) (strict explicitSel : Bool) (layers : List Layer)
    (h : strict = false ∨ explicitSel = false) :
    GradualKSModifier.initRegister param strict explicitSel layers = .ok
      ((layers.filter (fun l => decide (param ∈ l.params))).map
        (fun _ => { enabled := false, sparsity := none }),
       (layers.filter (fun l => decide (param ∈ l.params))).map
        (fun l => { tag := l.name ++ "/" ++ param, paramSparsity := 0 })) := by
  induction layers with
  | nil => rfl
  | cons layer rest ih =>
    have hcond : ¬(strict = true ∧ explicitSel = true ∧ param ∉ layer.params) := by
      rcases h with h | h <;> simp [h]
    unfold GradualKSModifier.initRegister
    rw [if_neg hcond, ih]
    by_cases hf : param ∈ layer.params <;> simp [hf, List.filter_cons]

/-- C5: during `initialize`, a resolved layer whose named parameter is
missing causes the missing-parameter failure exactly in strict mode over an
explicit name list; with the wildcard selection or strict mode off, the
layer is silently skipped: `initialize` succeeds and registers one mask and
one analyzer per layer that carries the parameter, none for the others. -/
theorem C5_missing_param_strictness (s : GKSState) (module layers : List Layer)
    (hres : resolveLayers s.cfg.layers module = .ok layers) :
    ((s.cfg.paramStrict = true ∧ s.cfg.layers.isExplicit = true ∧
        ∃ l ∈ layers, s.cfg.param ∉ l.params) →
      GradualKSModifier.initModifier s module = .error .missingParameter) ∧
    ((s.cfg.paramStrict = false ∨ s.cfg.layers.isExplicit = false) →
      GradualKSModifier.initModifier s module = .ok
        { s with
          initialized := true,
          masks := s.masks ++
            (layers.filter (fun l => decide (s.cfg.param ∈ l.params))).map
              (fun _ => { enabled := false, sparsity := none }),
          analyzers := some ((layers.filter (fun l => decide (s.cfg.param ∈ l.params))).map
            (fun l => { tag := l.name ++ "/" ++ s.cfg.param, paramSparsity := 0 })) }) := by
  constructor
  · rintro ⟨hstrict, hexp, hmiss⟩
    unfold GradualKSModifier.initModifier
    simp only [hres]
    rw [hstrict, hexp, initRegister_error s.cfg.param layers hmiss]
  · intro h
    unfold GradualKSModifier.initModifier
    simp only [hres]
    rw [initRegister_ok s.cfg.param s.cfg.paramStrict s.cfg.layers.isExplicit layers h]

/-- Witness for C5: strict explicit selection of `conv1` with a missing
`bias` fails; the wildcard selection succeeds and registers nothing. -/
theorem C5_witness :
    GradualKSModifier.initModifier demoStrictState demoModule = .error .missingParameter ∧
    GradualKSModifier.initModifier demoWildState demoModule = .ok
      { demoWildState with initialized := true, masks := [], analyzers := some [] } := by
  constructor
  · exact (C5_missing_param_strictness demoStrictState demoModule demoModule rfl).1
      ⟨rfl, rfl, ⟨{ name := "conv1", params := ["weight"] }, by decide, by decide⟩⟩
  · exact (C5_missing_param_strictness demoWildState demoModule demoModule rfl).2
      (Or.inr rfl)

/-- Length of the emitted log batch: one event per (logger, analyzer)
pair. -/
theorem logSparsity_length (as : List Analyzer) (loggers : List String) (epoch : ℚ)
    (spe : ℤ) : (logSparsity as loggers epoch spe).length = loggers.length * as.length := by
  unfold logSparsity
  induction loggers with
  | nil => simp
  | cons lg rest ih => simp [ih, Nat.succ_mul, Nat.add_comm]

/-- C6: `log_update` emits a log batch iff `applied_sparsity` differs from
`last_logged_sparsity`; the batch holds exactly one scalar event per
(logger, analyzer) pair, every event carries step `round(epoch)` when
`steps_per_epoch` is nonpositive and `round(epoch * steps_per_epoch)`
otherwise, and `last_logged_sparsity` is set to `applied_sparsity`; when
they are equal nothing is emitted and nothing changes; and no other
operation (`update`, `optimizer_post_step`, `initialize`) changes
`last_logged_sparsity`. -/
theorem C6_log_update_dedup (s : GKSState) (as : List Analyzer) (loggers : List String)
    (epoch : ℚ) (spe : ℤ) (han : s.analyzers = some as) :
    (s.appliedSparsity ≠ s.lastLoggedSparsity →
      GradualKSModifier.logUpdate s loggers epoch spe =
        .ok ({ s with lastLoggedSparsity := s.appliedSparsity },
          logSparsity as loggers epoch spe) ∧
      (logSparsity as loggers epoch spe).length = loggers.length * as.length ∧
      (∀ lg ∈ loggers, ∀ a ∈ as,
        Event.logScalar lg ("Modifier KS/" ++ a.tag) a.paramSparsity
          (if spe ≤ 0 then pyRound epoch else pyRound (epoch * (spe : ℚ))) ∈
          logSparsity as loggers epoch spe) ∧
      (∀ e ∈ logSparsity as loggers epoch spe, ∃ lg tag v, e = Event.logScalar lg tag v
        (if spe ≤ 0 then pyRound epoch else pyRound (epoch * (spe : ℚ))))) ∧
    (s.appliedSparsity = s.lastLoggedSparsity →
      GradualKSModifier.logUpdate s loggers epoch spe = .ok (s, [])) ∧
    (∀ s' evs, GradualKSModifier.update s epoch spe = .ok (s', evs) →
      s'.lastLoggedSparsity = s.lastLoggedSparsity) ∧
    ((GradualKSModifier.optimizerPostStep s epoch spe).1.lastLoggedSparsity =
      s.lastLoggedSparsity) ∧
    (∀ module s', GradualKSModifier.initModifier s module = .ok s' →
      s'.lastLoggedSparsity = s.lastLoggedSparsity) := by
  refine ⟨?_, ?_, ?_, rfl, ?_⟩
  · intro hne
    refine ⟨?_, logSparsity_length as loggers epoch spe, ?_, ?_⟩
    · rw [GradualKSModifier.logUpdate, if_pos hne, han]
    · intro lg hlg a ha
      unfold logSparsity
      exact List.mem_flatMap.mpr ⟨lg, hlg, List.mem_map_of_mem _ ha⟩
    · intro e he
      unfold logSparsity at he
      obtain ⟨lg, -, he⟩ := List.mem_flatMap.mp he
      obtain ⟨a, -, rfl⟩ := List.mem_map.mp he
      exact ⟨lg, _, _, rfl⟩
  · intro heq
    rw [GradualKSModifier.logUpdate, if_neg (by simp [heq])]
  · intro s' evs h
    by_cases hf : s.cfg.interFunc ∈ INTERPOLATION_FUNCS
    · rw [update_ok s epoch spe hf] at h
      cases h
      rfl
    · rw [update_unsupported s epoch spe hf] at h
      cases h
  · intro module s' h
    obtain ⟨layers, ms, as', -, -, rfl⟩ := initModifier_cases s module s' h
    rfl

/-- Witness for C6 at `demoLogState`: one logger and one analyzer give one
event. -/
theorem C6_witness :
    GradualKSModifier.logUpdate demoLogState ["tb"] 3 0 =
      .ok ({ demoLogState with lastLoggedSparsity := some 1 },
        logSparsity [{ tag := "conv1/weight", paramSparsity := 1 }] ["tb"] 3 0) ∧
    (logSparsity [{ tag := "conv1/weight", paramSparsity := 1 }] ["tb"] 3 0).length = 1 := by
  have h := C6_log_update_dedup demoLogState [{ tag := "conv1/weight", paramSparsity := 1 }]
    ["tb"] 3 0 rfl
  obtain ⟨h1, h2, -⟩ := (h.1 (by decide))
  exact ⟨h1, h2⟩

/-- C7 counterexample: the claim quantifies over every sequence of public
operations including property assignments, but the `inter_func` setter does
not re-validate — after a successful construction with `linear`, assigning
`bogus` through the public setter makes the next `update` reach the
unsupported-curve branch. -/
theorem C7_counterexample :
    GradualKSModifier.construct "weight" (.names ["fc"]) (.float 0) (.float 1) 0 10 1 true
      "linear" true = .ok c7Constructed ∧
    GradualKSModifier.setInterFunc c7Constructed "bogus" = .ok c7Mutated ∧
    GradualKSModifier.update c7Mutated 5 100 = .error .unsupportedCurve :=
  ⟨rfl, rfl, rfl⟩

/-- C7 amended: construction guarantees a recognized `inter_func`, any state
with a recognized `inter_func` never hits the unsupported-curve branch in
`update`, and every public operation except an `inter_func` assignment
preserves the stored curve name — the `inter_func` setter stores exactly the
assigned value without validating it, so the branch is unreachable only for
operation sequences that never assign an unrecognized curve name. -/
theorem C7_curve_branch_amended :
    (∀ param layers isp fsp se ee uf le ifn ps s,
      GradualKSModifier.construct param layers isp fsp se ee uf le ifn ps = .ok s →
      s.cfg.interFunc ∈ INTERPOLATION_FUNCS) ∧
    (∀ s : GKSState, s.cfg.interFunc ∈ INTERPOLATION_FUNCS → ∀ epoch spe,
      GradualKSModifier.update s epoch spe ≠ .error .unsupportedCurve) ∧
    (∀ s epoch spe s' evs, GradualKSModifier.update s epoch spe = .ok (s', evs) →
      s'.cfg.interFunc = s.cfg.interFunc) ∧
    (∀ s module s', GradualKSModifier.initModifier s module = .ok s' →
      s'.cfg.interFunc = s.cfg.interFunc) ∧
    (∀ s loggers epoch spe r, GradualKSModifier.logUpdate s loggers epoch spe = .ok r →
      r.1.cfg.interFunc = s.cfg.interFunc) ∧
    (∀ s epoch spe, (GradualKSModifier.optimizerPostStep s epoch spe).1.cfg.interFunc =
      s.cfg.interFunc) ∧
    (∀ s v s', GradualKSModifier.setParam s v = .ok s' →
      s'.cfg.interFunc = s.cfg.interFunc) ∧
    (∀ s v s', GradualKSModifier.setLayers s v = .ok s' →
      s'.cfg.interFunc = s.cfg.interFunc) ∧
    (∀ s v s', GradualKSModifier.setInitSparsity s v = .ok s' →
      s'.cfg.interFunc = s.cfg.interFunc) ∧
    (∀ s v s', GradualKSModifier.setFinalSparsity s v = .ok s' →
      s'.cfg.interFunc = s.cfg.interFunc) ∧
    (∀ s v s', GradualKSModifier.setLeaveEnabled s v = .ok s' →
      s'.cfg.interFunc = s.cfg.interFunc) ∧
    (∀ s v s', GradualKSModifier.setParamStrict s v = .ok s' →
      s'.cfg.interFunc = s.cfg.interFunc) ∧
    (∀ s v s', GradualKSModifier.setInterFunc s v = .ok s' → s'.cfg.interFunc = v) := by
  refine ⟨?_, ?_, ?_, ?_, ?_, ?_, ?_, ?_, ?_, ?_, ?_, ?_, ?_⟩
  · intro param layers isp fsp se ee uf le ifn ps s h
    unfold GradualKSModifier.construct at h
    split_ifs at h with h1 h2 h3 h4 h5 h6 h7
    cases h
    exact h7
  · intro s hf epoch spe h
    rw [update_ok s epoch spe hf] at h
    cases h
  · intro s epoch spe s' evs h
    by_cases hf : s.cfg.interFunc ∈ INTERPOLATION_FUNCS
    · rw [update_ok s epoch spe hf] at h
      cases h
      rfl
    · rw [update_unsupported s epoch spe hf] at h
      cases h
  · intro s module s' h
    obtain ⟨layers, ms, as, -, -, rfl⟩ := initModifier_cases s module s' h
    rfl
  · intro s loggers epoch spe r h
    unfold GradualKSModifier.logUpdate at h
    split_ifs at h
    · split at h
      · cases h
      · cases h
        rfl
    · cases h
      rfl
  · intro s epoch spe
    rfl
  · intro s v s' h
    unfold GradualKSModifier.setParam GradualKSModifier.propSetCheck at h
    split at h
    · cases h
    · cases h
      rfl
  · intro s v s' h
    unfold GradualKSModifier.setLayers GradualKSModifier.propSetCheck at h
    split at h
    · cases h
    · cases h
      rfl
  · intro s v s' h
    unfold GradualKSModifier.setInitSparsity GradualKSModifier.propSetCheck at h
    split at h
    · cases h
    · cases h
      rfl
  · intro s v s' h
    unfold GradualKSModifier.setFinalSparsity GradualKSModifier.propSetCheck at h
    split at h
    · cases h
    · cases h
      rfl
  · intro s v s' h
    unfold GradualKSModifier.setLeaveEnabled GradualKSModifier.propSetCheck at h
    split at h
    · cases h
    · cases h
      rfl
  · intro s v s' h
    unfold GradualKSModifier.setParamStrict GradualKSModifier.propSetCheck at h
    split at h
    · cases h
    · cases h
      rfl
  · intro s v s' h
    unfold GradualKSModifier.setInterFunc GradualKSModifier.propSetCheck at h
    split at h
    · cases h
    · cases h
      rfl

/-- Witness for the amended C7: the demo state has a recognized curve, so
`update` on it cannot raise the unsupported-curve error. -/
theorem C7_witness :
    demoState.cfg.interFunc ∈ INTERPOLATION_FUNCS ∧
    GradualKSModifier.update demoState 5 1 ≠ .error .unsupportedCurve :=
  ⟨by decide, C7_curve_branch_amended.2.1 demoState (by decide) 5 1⟩

/-- C8: `ScheduledModifierManager.modify` invokes the modifiers in a
permutation of the input that is sorted by `start_epoch`: whenever the
modifier at position `i` of the invocation order has a strictly smaller
`start_epoch` than the one at position `j`, then `i < j`, i.e. it is invoked
earlier. -/
theorem C8_manager_invokes_in_start_order (mods : List KerasModifier) :
    (ScheduledModifierManager.modifyOrder mods).Perm mods ∧
    ∀ (i j : ℕ) (hi : i < (ScheduledModifierManager.modifyOrder mods).length)
      (hj : j < (ScheduledModifierManager.modifyOrder mods).length),
      ((ScheduledModifierManager.modifyOrder mods).get ⟨i, hi⟩).startEpoch <
        ((ScheduledModifierManager.modifyOrder mods).get ⟨j, hj⟩).startEpoch → i < j := by
  have hsorted : (ScheduledModifierManager.modifyOrder mods).Pairwise
      (fun a b => decide (a.startEpoch ≤ b.startEpoch) = true) := by
    refine List.sorted_mergeSort ?_ ?_ mods
    · intro a b c hab hbc
      simp only [decide_eq_true_eq] at *
      exact le_trans hab hbc
    · intro a b
      simp only [Bool.or_eq_true, decide_eq_true_eq]
      exact le_total _ _
  constructor
  · exact List.mergeSort_perm mods _
  · intro i j hi hj hlt
    by_contra hji
    push_neg at hji
    rcases eq_or_lt_of_le hji with heq | hlt2
    · subst heq
      exact lt_irrefl _ hlt
    · have hp := List.pairwise_iff_get.mp hsorted ⟨j, hj⟩ ⟨i, hi⟩ (Fin.mk_lt_mk.mpr hlt2)
      simp only [decide_eq_true_eq] at hp
      exact absurd hlt (not_lt.mpr hp)

/-- Witness for C8 on the concrete two-modifier list: the sorted order puts
the `start_epoch = 2` modifier first, and the ordering theorem applies. -/
theorem C8_witness :
    (ScheduledModifierManager.modifyOrder demoMods).Perm demoMods ∧ (0 : ℕ) < 1 := by
  have hord : ScheduledModifierManager.modifyOrder demoMods =
      [{ id := 1, startEpoch := 2 }, { id := 0, startEpoch := 5 }] := by
    norm_num [ScheduledModifierManager.modifyOrder, demoMods, List.mergeSort, List.merge]
  have h0 : 0 < (ScheduledModifierManager.modifyOrder demoMods).length := by
    rw [hord]; decide
  have h1 : 1 < (ScheduledModifierManager.modifyOrder demoMods).length := by
    rw [hord]; decide
  have hg0 : (ScheduledModifierManager.modifyOrder demoMods).get ⟨0, h0⟩ =
      { id := 1, startEpoch := 2 } := by
    rw [List.get_of_eq hord]
    rfl
  have hg1 : (ScheduledModifierManager.modifyOrder demoMods).get ⟨1, h1⟩ =
      { id := 0, startEpoch := 5 } := by
    rw [List.get_of_eq hord]
    rfl
  refine ⟨(C8_manager_invokes_in_start_order demoMods).1, ?_⟩
  refine (C8_manager_invokes_in_start_order demoMods).2 0 1 h0 h1 ?_
  rw [hg0, hg1]
  norm_num

end NeuralMagic
